import Mathlib

/-!
Formal model of the calibration and execution core of the Hark Coinbase
BTC-USD bot. Prices, balances and threshold multipliers are modelled as
rationals; epoch times as integers. Python operator precedence is preserved
verbatim: `1+ax * a` denotes `1 + (ax * a)` and `a * 1+ac` denotes `(a * 1) + ac`
in both languages, so the comparison expressions below are copied from the
source character for character.
-/

namespace HarkBot

/-- Truthiness of an optional decimal value as Python evaluates it:
None and 0.0 are falsy, every other number is truthy. -/
def truthyQ : Option ℚ → Bool
  | none => false
  | some x => decide (x ≠ 0)

/-- Orders emitted towards the exchange collaborator. -/
inductive Order where
  | marketBuy (usd : ℚ)
  | limitSell (size : ℚ) (price : ℚ)
  | marketSell (size : ℚ)
deriving DecidableEq

/-- Increments_Generator: axvalue = 0.002 * (i + 1) for i in range(20). -/
def axlist : List ℚ := (List.range 20).map (fun i => (2 / 1000 : ℚ) * ((i : ℚ) + 1))

/-- Increments_Generator: axxvalue = 0.002 * (i + 1). -/
def axxlist : List ℚ := (List.range 20).map (fun i => (2 / 1000 : ℚ) * ((i : ℚ) + 1))

/-- Increments_Generator: acvalue = 0.002 * (i + 1). -/
def aclist : List ℚ := (List.range 20).map (fun i => (2 / 1000 : ℚ) * ((i : ℚ) + 1))

/-- Increments_Generator: bxvalue = 0.002 * (i + 1). -/
def bxlist : List ℚ := (List.range 20).map (fun i => (2 / 1000 : ℚ) * ((i : ℚ) + 1))

/-- Increments_Generator: bxxvalue = 0.002 * (i + 1). -/
def bxxlist : List ℚ := (List.range 20).map (fun i => (2 / 1000 : ℚ) * ((i : ℚ) + 1))

/-- Increments_Generator: cdvalue = 0.005 * (i + 1), the hourly result mark grid. -/
def cdlist : List ℚ := (List.range 20).map (fun i => (5 / 1000 : ℚ) * ((i : ℚ) + 1))

/-- The six per-variable multiplier grids consumed by Cartesian_Trier, kept as a
parameter so that the scanner can also be evaluated on small grids. -/
structure Grids where
  axlist : List ℚ
  axxlist : List ℚ
  aclist : List ℚ
  bxlist : List ℚ
  bxxlist : List ℚ
  cdlist : List ℚ

/-- The grids the source actually generates at module level. -/
def sourceGrids : Grids :=
  ⟨axlist, axxlist, aclist, bxlist, bxxlist, cdlist⟩

/-- One combination of the six nested loops of Cartesian_Trier, in loop order
ax, axx, ac, bx, bxx, cd. -/
structure Combo where
  ax : ℚ
  axx : ℚ
  ac : ℚ
  bx : ℚ
  bxx : ℚ
  cd : ℚ
deriving DecidableEq

/-- The Cartesian product of the six grids, in the order the nested for loops
of the source visit it. -/
def combos (g : Grids) : List Combo :=
  g.axlist.flatMap fun ax =>
    g.axxlist.flatMap fun axx =>
      g.aclist.flatMap fun ac =>
        g.bxlist.flatMap fun bx =>
          g.bxxlist.flatMap fun bxx =>
            g.cdlist.map fun cd => ⟨ax, axx, ac, bx, bxx, cd⟩

/-- abcd win condition exactly as the source writes it:
a < b and b >= 1+ax * a and b <= 1+axx * a and b <= 1+bxx * c and
c > a * 1+ac and b >= 1+bx * c and d >= 1+cd * c. -/
def abcd_win_cond (a b c d ax axx ac bx bxx cd : ℚ) : Prop :=
  a < b ∧ b ≥ 1 + ax * a ∧ b ≤ 1 + axx * a ∧ b ≤ 1 + bxx * c ∧
    c > a * 1 + ac ∧ b ≥ 1 + bx * c ∧ d ≥ 1 + cd * c

/-- abcd loss condition: same window conjuncts, with d < 1+cd * c. -/
def abcd_loss_cond (a b c d ax axx ac bx bxx cd : ℚ) : Prop :=
  a < b ∧ b ≥ 1 + ax * a ∧ b ≤ 1 + axx * a ∧ b ≤ 1 + bxx * c ∧
    c > a * 1 + ac ∧ b ≥ 1 + bx * c ∧ d < 1 + cd * c

/-- dropped abc win condition:
a > b and b >= 1+ax * a and b <= 1+axx * a and b <= 1+bxx * c and c >= b * 1+cd. -/
def dropped_abc_win_cond (a b c ax axx bxx cd : ℚ) : Prop :=
  a > b ∧ b ≥ 1 + ax * a ∧ b ≤ 1 + axx * a ∧ b ≤ 1 + bxx * c ∧ c ≥ b * 1 + cd

/-- dropped abc loss condition: same, with c < b * 1+cd. -/
def dropped_abc_loss_cond (a b c ax axx bxx cd : ℚ) : Prop :=
  a > b ∧ b ≥ 1 + ax * a ∧ b ≤ 1 + axx * a ∧ b ≤ 1 + bxx * c ∧ c < b * 1 + cd

/-- abc win condition: a < b and b >= 1+ax * a and b <= 1+axx * a and c >= b * 1+cd. -/
def abc_win_cond (a b c ax axx cd : ℚ) : Prop :=
  a < b ∧ b ≥ 1 + ax * a ∧ b ≤ 1 + axx * a ∧ c ≥ b * 1 + cd

/-- abc loss condition: same, with c < b * 1+cd. -/
def abc_loss_cond (a b c ax axx cd : ℚ) : Prop :=
  a < b ∧ b ≥ 1 + ax * a ∧ b ≤ 1 + axx * a ∧ c < b * 1 + cd

/-- ab win condition: a < b and b >= 1+ax * a and c >= b * 1+cd. -/
def ab_win_cond (a b c ax cd : ℚ) : Prop :=
  a < b ∧ b ≥ 1 + ax * a ∧ c ≥ b * 1 + cd

/-- ab loss condition: a < b and b >= 1+ax * a and c < b * 1+cd. -/
def ab_loss_cond (a b c ax cd : ℚ) : Prop :=
  a < b ∧ b ≥ 1 + ax * a ∧ c < b * 1 + cd

/-- dropped ab win condition: a > b and b <= 1+ax * a and c >= b * 1+cd. -/
def dropped_ab_win_cond (a b c ax cd : ℚ) : Prop :=
  a > b ∧ b ≤ 1 + ax * a ∧ c ≥ b * 1 + cd

/-- dropped ab loss condition: a > b and b <= 1+ax * a and c < b * 1+cd. -/
def dropped_ab_loss_cond (a b c ax cd : ℚ) : Prop :=
  a > b ∧ b ≤ 1 + ax * a ∧ c < b * 1 + cd


instance (a b c d ax axx ac bx bxx cd : ℚ) :
    Decidable (abcd_win_cond a b c d ax axx ac bx bxx cd) := by
  unfold abcd_win_cond; infer_instance

instance (a b c d ax axx ac bx bxx cd : ℚ) :
    Decidable (abcd_loss_cond a b c d ax axx ac bx bxx cd) := by
  unfold abcd_loss_cond; infer_instance

instance (a b c ax axx bxx cd : ℚ) :
    Decidable (dropped_abc_win_cond a b c ax axx bxx cd) := by
  unfold dropped_abc_win_cond; infer_instance

instance (a b c ax axx bxx cd : ℚ) :
    Decidable (dropped_abc_loss_cond a b c ax axx bxx cd) := by
  unfold dropped_abc_loss_cond; infer_instance

instance (a b c ax axx cd : ℚ) : Decidable (abc_win_cond a b c ax axx cd) := by
  unfold abc_win_cond; infer_instance

instance (a b c ax axx cd : ℚ) : Decidable (abc_loss_cond a b c ax axx cd) := by
  unfold abc_loss_cond; infer_instance

instance (a b c ax cd : ℚ) : Decidable (ab_win_cond a b c ax cd) := by
  unfold ab_win_cond; infer_instance

instance (a b c ax cd : ℚ) : Decidable (ab_loss_cond a b c ax cd) := by
  unfold ab_loss_cond; infer_instance

instance (a b c ax cd : ℚ) : Decidable (dropped_ab_win_cond a b c ax cd) := by
  unfold dropped_ab_win_cond; infer_instance

instance (a b c ax cd : ℚ) : Decidable (dropped_ab_loss_cond a b c ax cd) := by
  unfold dropped_ab_loss_cond; infer_instance

/-- A sample as the trier records it: the window position i of the first price
read, together with the flat list of values the source extends the matching
global list with (prices interleaved with the 1+multiplier values). -/
structure Sample where
  idx : ℕ
  vals : List ℚ
deriving DecidableEq

/-- The ten win and loss sample lists Cartesian_Trier accumulates. -/
structure TrierResult where
  wins_risinglows_abcd : List Sample
  losses_risinglows_abcd : List Sample
  dropped_wins_risinglows_abc : List Sample
  dropped_losses_risinglows_abc : List Sample
  wins_risinglows_abc : List Sample
  losses_risinglows_abc : List Sample
  wins_risinglows_ab : List Sample
  losses_risinglows_ab : List Sample
  dropped_wins_risinglows_ab : List Sample
  dropped_losses_risinglows_ab : List Sample
deriving DecidableEq

/-- The result of scanning no window at all. -/
def TrierResult.empty : TrierResult :=
  ⟨[], [], [], [], [], [], [], [], [], []⟩

/-- Pointwise concatenation of two scan results, in scan order. -/
def TrierResult.append (r s : TrierResult) : TrierResult :=
  ⟨r.wins_risinglows_abcd ++ s.wins_risinglows_abcd,
    r.losses_risinglows_abcd ++ s.losses_risinglows_abcd,
    r.dropped_wins_risinglows_abc ++ s.dropped_wins_risinglows_abc,
    r.dropped_losses_risinglows_abc ++ s.dropped_losses_risinglows_abc,
    r.wins_risinglows_abc ++ s.wins_risinglows_abc,
    r.losses_risinglows_abc ++ s.losses_risinglows_abc,
    r.wins_risinglows_ab ++ s.wins_risinglows_ab,
    r.losses_risinglows_ab ++ s.losses_risinglows_ab,
    r.dropped_wins_risinglows_ab ++ s.dropped_wins_risinglows_ab,
    r.dropped_losses_risinglows_ab ++ s.dropped_losses_risinglows_ab⟩

/-- All samples one window position contributes: every grid combination is tried
against every pattern condition, and each match is recorded as the source
records it. -/
def trierWindow (g : Grids) (i : ℕ) (a b c d : ℚ) : TrierResult where
  wins_risinglows_abcd :=
    ((combos g).filter fun t =>
        decide (abcd_win_cond a b c d t.ax t.axx t.ac t.bx t.bxx t.cd)).map fun t =>
      ⟨i, [a, 1 + t.ax, b, 1 + t.axx, c, 1 + t.ac, 1 + t.bx, 1 + t.bxx, 1 + t.cd, d]⟩
  losses_risinglows_abcd :=
    ((combos g).filter fun t =>
        decide (abcd_loss_cond a b c d t.ax t.axx t.ac t.bx t.bxx t.cd)).map fun t =>
      ⟨i, [a, 1 + t.ax, b, 1 + t.axx, c, 1 + t.ac, 1 + t.bx, 1 + t.bxx, 1 + t.cd, d]⟩
  dropped_wins_risinglows_abc :=
    ((combos g).filter fun t =>
        decide (dropped_abc_win_cond a b c t.ax t.axx t.bxx t.cd)).map fun t =>
      ⟨i, [a, 1 + t.ax, b, 1 + t.axx, c, 1 + t.ac, 1 + t.bx, 1 + t.bxx, 1 + t.cd]⟩
  dropped_losses_risinglows_abc :=
    ((combos g).filter fun t =>
        decide (dropped_abc_loss_cond a b c t.ax t.axx t.bxx t.cd)).map fun t =>
      ⟨i, [a, 1 + t.ax, b, 1 + t.axx, c, 1 + t.ac, 1 + t.bx, 1 + t.bxx, 1 + t.cd]⟩
  wins_risinglows_abc :=
    ((combos g).filter fun t =>
        decide (abc_win_cond a b c t.ax t.axx t.cd)).map fun t =>
      ⟨i, [a, 1 + t.ax, b, 1 + t.axx, c, 1 + t.cd]⟩
  losses_risinglows_abc :=
    ((combos g).filter fun t =>
        decide (abc_loss_cond a b c t.ax t.axx t.cd)).map fun t =>
      ⟨i, [a, 1 + t.ax, b, 1 + t.axx, c, 1 + t.cd]⟩
  wins_risinglows_ab :=
    ((combos g).filter fun t =>
        decide (ab_win_cond a b c t.ax t.cd)).map fun t =>
      ⟨i, [a, 1 + t.ax, b, c, 1 + t.cd]⟩
  losses_risinglows_ab :=
    ((combos g).filter fun t =>
        decide (ab_loss_cond a b c t.ax t.cd)).map fun t =>
      ⟨i, [a, 1 + t.ax, b, c, 1 + t.cd]⟩
  dropped_wins_risinglows_ab :=
    ((combos g).filter fun t =>
        decide (dropped_ab_win_cond a b c t.ax t.cd)).map fun t =>
      ⟨i, [a, 1 + t.ax, b, c, 1 + t.cd]⟩
  dropped_losses_risinglows_ab :=
    ((combos g).filter fun t =>
        decide (dropped_ab_loss_cond a b c t.ax t.cd)).map fun t =>
      ⟨i, [a, 1 + t.ax, b, c, 1 + t.cd]⟩

/-- The sliding pass of Cartesian_Trier from window position i: the source
breaks out of the loop at the first i with i + 3 >= len(series), which is
exactly the case where fewer than four prices remain. -/
def trierGo (g : Grids) : ℕ → List ℚ → TrierResult
  | i, a :: b :: c :: d :: rest =>
    (trierWindow g i a b c d).append (trierGo g (i + 1) (b :: c :: d :: rest))
  | _, _ => TrierResult.empty

/-- Cartesian_Trier: scan the whole imported price history from position 0. -/
def Cartesian_Trier (g : Grids) (series : List ℚ) : TrierResult :=
  trierGo g 0 series

/-- Every sample the scan emitted, across the ten per-pattern lists. -/
def TrierResult.allSamples (r : TrierResult) : List Sample :=
  r.wins_risinglows_abcd ++ r.losses_risinglows_abcd ++
    r.dropped_wins_risinglows_abc ++ r.dropped_losses_risinglows_abc ++
    r.wins_risinglows_abc ++ r.losses_risinglows_abc ++
    r.wins_risinglows_ab ++ r.losses_risinglows_ab ++
    r.dropped_wins_risinglows_ab ++ r.dropped_losses_risinglows_ab

lemma mem_allSamples_append {smp : Sample} {r s : TrierResult} :
    smp ∈ (r.append s).allSamples ↔ smp ∈ r.allSamples ∨ smp ∈ s.allSamples := by
  simp only [TrierResult.append, TrierResult.allSamples, List.mem_append]
  tauto

lemma allSamples_empty : TrierResult.empty.allSamples = [] := rfl

lemma mem_trierWindow_idx {smp : Sample} {g : Grids} {i : ℕ} {a b c d : ℚ}
    (h : smp ∈ (trierWindow g i a b c d).allSamples) : smp.idx = i := by
  simp only [trierWindow, TrierResult.allSamples, List.mem_append, List.mem_map] at h
  rcases h with ((((((((h | h) | h) | h) | h) | h) | h) | h) | h) | h
  all_goals obtain ⟨t, -, ht⟩ := h
  all_goals subst ht
  all_goals rfl

lemma trierGo_idx_bound (g : Grids) :
    ∀ (i : ℕ) (t : List ℚ), ∀ smp ∈ (trierGo g i t).allSamples, smp.idx + 4 ≤ i + t.length
  | i, a :: b :: c :: d :: rest => by
    intro smp hm
    rw [trierGo, mem_allSamples_append] at hm
    rcases hm with hm | hm
    · have := mem_trierWindow_idx hm
      simp only [this, List.length_cons]
      omega
    · have := trierGo_idx_bound g (i + 1) (b :: c :: d :: rest) smp hm
      simp only [List.length_cons] at this ⊢
      omega
  | _, [] => by intro smp hm; simp [trierGo, allSamples_empty] at hm
  | _, [a] => by intro smp hm; simp [trierGo, allSamples_empty] at hm
  | _, [a, b] => by intro smp hm; simp [trierGo, allSamples_empty] at hm
  | _, [a, b, c] => by intro smp hm; simp [trierGo, allSamples_empty] at hm

/-- Tiny one-value grids used to evaluate the scanner on concrete inputs. -/
def witnessGrids : Grids :=
  ⟨[1 / 100], [1 / 100], [1 / 100], [1 / 100], [1 / 100], [1 / 100]⟩

/-- C4: for every input price series and every generated ThresholdSet, the
pattern scan never reads a window index or result index past the end of the
series: every emitted sample satisfies window_end + 1 ≤ len(series), where
window_end = idx + 3 is the last index read for that window, and an empty or
too-short series yields empty win and loss sample sets rather than an error. -/
theorem cartesian_trier_never_reads_past_end (g : Grids) (series : List ℚ) :
    (∀ smp ∈ (Cartesian_Trier g series).allSamples, smp.idx + 3 + 1 ≤ series.length) ∧
      (series.length ≤ 3 → Cartesian_Trier g series = TrierResult.empty) := by
  constructor
  · intro smp hm
    have := trierGo_idx_bound g 0 series smp hm
    omega
  · intro hlen
    rcases series with _ | ⟨a, _ | ⟨b, _ | ⟨c, _ | ⟨d, rest⟩⟩⟩⟩
    · rfl
    · rfl
    · rfl
    · rfl
    · simp only [List.length_cons] at hlen
      omega

/-- Witness for C4 at a concrete series and grid: the scan of
[100, 102, 104, 50] emits an ab win sample at window 0 and its read bound
holds, while the two-point series scans to the empty result. -/
theorem cartesian_trier_never_reads_past_end_witness :
    ((⟨0, [100, 1 + (1 : ℚ) / 100, 102, 104, 1 + (1 : ℚ) / 100]⟩ : Sample) ∈
        (Cartesian_Trier witnessGrids [100, 102, 104, 50]).allSamples) ∧
      (0 + 3 + 1 ≤ ([100, 102, 104, 50] : List ℚ).length) ∧
      Cartesian_Trier witnessGrids [100, 102] = TrierResult.empty := by
  have hmem : (⟨0, [100, 1 + (1 : ℚ) / 100, 102, 104, 1 + (1 : ℚ) / 100]⟩ : Sample) ∈
      (Cartesian_Trier witnessGrids [100, 102, 104, 50]).allSamples := by
    unfold Cartesian_Trier trierGo trierWindow combos witnessGrids
    norm_num [TrierResult.allSamples, TrierResult.append, TrierResult.empty,
      ab_win_cond, ab_loss_cond, abc_win_cond, abc_loss_cond, abcd_win_cond, abcd_loss_cond,
      dropped_ab_win_cond, dropped_ab_loss_cond, dropped_abc_win_cond, dropped_abc_loss_cond,
      List.filter, List.flatMap]
  exact ⟨hmem,
    (cartesian_trier_never_reads_past_end witnessGrids [100, 102, 104, 50]).1 _ hmem,
    (cartesian_trier_never_reads_past_end witnessGrids [100, 102]).2 (by norm_num)⟩

/-- Modelled from the spec (numeric semantics of §4.2): a threshold multiplier
m is applied multiplicatively, candidate ≥ (1 + m) · reference; this is the ab
match predicate under that reading, written only to compare the claim against
the code predicate ab_win_cond. -/
def ab_match_spec_semantics (a b ax : ℚ) : Prop :=
  a < b ∧ b ≥ (1 + ax) * a

/-- C6 (code bug): with a = 100, b = 101, ax = 0.02 (a generated grid value)
the source predicate accepts the window, because Python parses b >= 1+ax * a
as b ≥ 1 + (ax · a) = 3, while the documented semantics candidate ≥ (1+m) ·
reference requires b ≥ 102 and rejects it; the scanner accordingly emits an ab
win sample for the series [100, 101, 102, 50] that the specified semantics
would never emit. -/
theorem threshold_applied_additively_not_multiplicatively :
    ab_win_cond 100 101 102 (1 / 50) (1 / 200) ∧
      ¬ ab_match_spec_semantics 100 101 (1 / 50) ∧
      (1 / 50 : ℚ) ∈ axlist ∧ (1 / 200 : ℚ) ∈ cdlist ∧
      (⟨0, [100, 1 + (1 : ℚ) / 50, 101, 102, 1 + (1 : ℚ) / 200]⟩ : Sample) ∈
        (Cartesian_Trier ⟨[1 / 50], [1 / 50], [1 / 50], [1 / 50], [1 / 50], [1 / 200]⟩
            [100, 101, 102, 50]).wins_risinglows_ab := by
  refine ⟨by norm_num [ab_win_cond], ?_, by unfold axlist; norm_num [List.range_succ],
    by unfold cdlist; norm_num [List.range_succ], ?_⟩
  · intro h
    obtain ⟨-, h2⟩ := h
    norm_num at h2
  · unfold Cartesian_Trier trierGo trierWindow combos
    norm_num [ab_win_cond, ab_loss_cond, abc_win_cond, abc_loss_cond, abcd_win_cond,
      abcd_loss_cond, dropped_ab_win_cond, dropped_ab_loss_cond, dropped_abc_win_cond,
      dropped_abc_loss_cond, TrierResult.append, TrierResult.empty, List.filter, List.flatMap]

/-- The shared module-level position and mode state the strategies read and
mutate. There is one such record for the whole process: hourly_bot and
minutely_bot select the strategy, the pattern model flags carry the truthiness
of the tri-state calibration variables as the strategies test them, and the
position fields are the single set of globals position_held, bought_time,
bought_price, btc_amount_held, sold_time, sold_price. -/
structure BotState where
  hourly_bot : Bool
  minutely_bot : Bool
  abcdthen_a_model : Bool
  aandupspike_model : Bool
  price_slippage_server_fault : Option Bool
  position_held : Bool
  bought_time : ℤ
  bought_price : ℚ
  btc_amount_held : ℚ
  sold_time : Option ℤ
  sold_price : Option ℚ
deriving DecidableEq

/-- The per-cycle inputs a tick supplies: the exchange clock and spot price,
the recorded past price marks (None when the corresponding mark has not been
taken yet), the length of the time mark list, the computed trade amount, and
whether the exchange accepted the buy and sell orders this cycle. -/
structure Tick where
  current_time : ℤ
  current_price : ℚ
  marks_count : ℕ
  price_5_minutes_ago : Option ℚ
  price_65_minutes_ago : Option ℚ
  price_125_minutes_ago : Option ℚ
  price_1_minute_ago : Option ℚ
  trade_amount : ℚ
  buy_ok : Bool
  sell_ok : Bool
deriving DecidableEq

/-- The live abcd match predicate of execute_hourly_strategy: all three past
price marks are recorded and truthy, the current price exceeds the 5-minute
mark, and both recent marks are at or above the 125-minute mark. -/
def abcd_live_match (t : Tick) : Prop :=
  truthyQ t.price_5_minutes_ago = true ∧ truthyQ t.price_65_minutes_ago = true ∧
    truthyQ t.price_125_minutes_ago = true ∧
    t.current_price > t.price_5_minutes_ago.getD 0 ∧
    t.price_65_minutes_ago.getD 0 ≥ t.price_125_minutes_ago.getD 0 ∧
    t.price_5_minutes_ago.getD 0 ≥ t.price_125_minutes_ago.getD 0

instance (t : Tick) : Decidable (abcd_live_match t) := by
  unfold abcd_live_match; infer_instance

/-- The ABCD buy section of execute_hourly_strategy: requires at least three
recorded marks with the three past prices present and truthy, the model flag,
no open position, and the match predicate over the three marks; the market buy
order is placed first and the position state changes only when the exchange
reports the order as accepted. -/
def hourly_buy_step (s : BotState) (t : Tick) : BotState × List Order :=
  if t.marks_count ≥ 3 ∧ s.abcdthen_a_model = true ∧ s.position_held = false ∧
      abcd_live_match t then
    if t.buy_ok then
      ({ s with
          position_held := true
          bought_time := t.current_time
          bought_price := t.current_price
          btc_amount_held := t.trade_amount / t.current_price },
        [Order.marketBuy t.trade_amount])
    else (s, [Order.marketBuy t.trade_amount])
  else (s, [])

/-- The upspike buy section of execute_minutely_strategy: model flag, no open
position, and current price above the one-minute mark. -/
def minutely_buy_step (s : BotState) (t : Tick) : BotState × List Order :=
  if t.price_1_minute_ago ≠ none ∧ s.aandupspike_model = true ∧ s.position_held = false ∧
      t.current_price > t.price_1_minute_ago.getD 0 then
    if t.buy_ok then
      ({ s with
          position_held := true
          bought_time := t.current_time
          bought_price := t.current_price
          btc_amount_held := t.trade_amount / t.current_price },
        [Order.marketBuy t.trade_amount])
    else (s, [Order.marketBuy t.trade_amount])
  else (s, [])

/-- The sell checks shared verbatim by execute_hourly_strategy and
execute_minutely_strategy, in source order: the profit-target limit sell
(+0.5 percent and at least 60 seconds), the 120-second time-based market
sell, then the -2 percent stop-loss market sell; each places its order and
clears the position only when the exchange reports the order as accepted. -/
def sell_checks (s1 : BotState) (t : Tick) : BotState × List Order :=
  if s1.position_held = true then
    if (t.current_price - s1.bought_price) / s1.bought_price ≥ 5 / 1000 ∧
        t.current_time - s1.bought_time ≥ 60 then
      if t.sell_ok then
        ({ s1 with
            position_held := false
            sold_time := some t.current_time
            sold_price := some t.current_price },
          [Order.limitSell s1.btc_amount_held (t.current_price * (101 / 100))])
      else (s1, [Order.limitSell s1.btc_amount_held (t.current_price * (101 / 100))])
    else if t.current_time - s1.bought_time ≥ 120 then
      if t.sell_ok then
        ({ s1 with
            position_held := false
            sold_time := some t.current_time
            sold_price := some t.current_price },
          [Order.marketSell s1.btc_amount_held])
      else (s1, [Order.marketSell s1.btc_amount_held])
    else if (t.current_price - s1.bought_price) / s1.bought_price ≤ -(2 / 100) then
      if t.sell_ok then
        ({ s1 with
            position_held := false
            sold_time := some t.current_time
            sold_price := some t.current_price },
          [Order.marketSell s1.btc_amount_held])
      else (s1, [Order.marketSell s1.btc_amount_held])
    else (s1, [])
  else (s1, [])

/-- execute_hourly_strategy: the ABCD buy section, then the sell checks on the
possibly updated state, with orders in emission order. -/
def execute_hourly_strategy (s : BotState) (t : Tick) : BotState × List Order :=
  ((sell_checks (hourly_buy_step s t).1 t).1,
    (hourly_buy_step s t).2 ++ (sell_checks (hourly_buy_step s t).1 t).2)

/-- execute_minutely_strategy: the upspike buy section, then the same sell
checks. -/
def execute_minutely_strategy (s : BotState) (t : Tick) : BotState × List Order :=
  ((sell_checks (minutely_buy_step s t).1 t).1,
    (minutely_buy_step s t).2 ++ (sell_checks (minutely_buy_step s t).1 t).2)

/-- execute_bot_cycle: run the hourly strategy when hourly_bot is set, else the
minutely strategy when minutely_bot is set, else stay inactive. -/
def execute_bot_cycle (s : BotState) (t : Tick) : BotState × List Order :=
  if s.hourly_bot = true then execute_hourly_strategy s t
  else if s.minutely_bot = true then execute_minutely_strategy s t
  else (s, [])

/-- The main loop: one execute_bot_cycle per tick, orders concatenated. -/
def run_cycles : BotState → List Tick → BotState × List Order
  | s, [] => (s, [])
  | s, t :: ts =>
    let p := execute_bot_cycle s t
    let q := run_cycles p.1 ts
    (q.1, p.2 ++ q.2)

/-- Second half of the module-level slippage kill-switch: a set systemic
fault flag forces both bot mode flags false. -/
def slippage_flag_force (s1 : BotState) : BotState :=
  if s1.price_slippage_server_fault = some true then
    { s1 with
        hourly_bot := false
        minutely_bot := false }
  else s1

/-- The full module-level slippage section: the threshold check followed by
the fault-flag enforcement. -/
def price_slippage_check (s : BotState) (fault_count : ℕ) (results_count : ℕ) : BotState :=
  slippage_flag_force
    (if fault_count ≥ 20 ∧ results_count ≥ 100 then
      { s with
          price_slippage_server_fault := some true
          hourly_bot := false
          minutely_bot := false }
    else s)

/-- The module-level abcd buy block: inside the triple gate the buy fires
whenever the three-mark match predicate over the past recorded prices holds.
The block does not test position_held; it returns the position flag after the
block together with the orders it emits (the source funds the market order
with 0.05 times the current spot price). -/
def abcd_module_buy_block (hourly_bot abcdthen_a_model gotten_a : Option Bool)
    (position_held : Bool) (current_price p5 p65 p125 : ℚ) : Bool × List Order :=
  if hourly_bot = some true ∧ abcdthen_a_model = some true ∧ gotten_a = some true then
    if current_price > p5 ∧ p65 ≥ p125 ∧ p5 ≥ p125 then
      (true, [Order.marketBuy (5 / 100 * current_price)])
    else (position_held, [])
  else (position_held, [])

/-- Position flag, retry toggle and emitted orders after the abcd sell ladder. -/
structure SellOut where
  position_held : Bool
  tried_limit_sell : Option Bool
  orders : List Order
deriving DecidableEq

/-- Rung 1 of the module-level abcd sell ladder: the 60-second limit sell at
+0.5 percent, which also sets the retry toggle. -/
def ladder_limit_sell (elapsed : ℤ) (bought_price current_price btc_amount_held : ℚ)
    (r : SellOut) : SellOut :=
  if r.position_held = true ∧ elapsed ≥ 60 ∧ current_price ≥ 1005 / 1000 * bought_price then
    ⟨false, some true, r.orders ++ [Order.limitSell btc_amount_held (current_price * (101 / 100))]⟩
  else r

/-- Rung 2: the retry of the limit sell, gated on the retry toggle. -/
def ladder_limit_retry (elapsed : ℤ) (bought_price current_price btc_amount_held : ℚ)
    (r : SellOut) : SellOut :=
  if r.tried_limit_sell = some true ∧ r.position_held = true ∧ elapsed ≥ 60 ∧
      current_price ≥ 1005 / 1000 * bought_price then
    ⟨false, none, r.orders ++ [Order.limitSell btc_amount_held (current_price * (101 / 100))]⟩
  else r

/-- Rung 3: the 61-second limit sell at +0.4 percent. -/
def ladder_limit_late (elapsed : ℤ) (bought_price current_price btc_amount_held : ℚ)
    (r : SellOut) : SellOut :=
  if r.position_held = true ∧ elapsed ≥ 61 ∧ current_price ≥ 1004 / 1000 * bought_price then
    ⟨false, r.tried_limit_sell, r.orders ++ [Order.limitSell btc_amount_held (current_price * (101 / 100))]⟩
  else r

/-- Rungs 4 and 5: the unconditional market sells by time. -/
def ladder_time_sell (elapsed bound : ℤ) (btc_amount_held : ℚ) (r : SellOut) : SellOut :=
  if r.position_held = true ∧ elapsed ≥ bound then
    ⟨false, r.tried_limit_sell, r.orders ++ [Order.marketSell btc_amount_held]⟩
  else r

/-- Rung 6: the 62-second semi panic market sell below +0.2 percent. -/
def ladder_semi_panic (elapsed : ℤ) (bought_price current_price btc_amount_held : ℚ)
    (r : SellOut) : SellOut :=
  if r.position_held = true ∧ elapsed ≥ 62 ∧ current_price ≤ 1002 / 1000 * bought_price then
    ⟨false, r.tried_limit_sell, r.orders ++ [Order.marketSell btc_amount_held]⟩
  else r

/-- Rung 7: the panic market sell, requiring elapsed ≥ 5 and a price at or
below 0.98 times the bought price. -/
def ladder_panic (elapsed : ℤ) (bought_price current_price btc_amount_held : ℚ)
    (r : SellOut) : SellOut :=
  if r.position_held = true ∧ elapsed ≥ 5 ∧ current_price ≤ 98 / 100 * bought_price then
    ⟨false, r.tried_limit_sell, r.orders ++ [Order.marketSell btc_amount_held]⟩
  else r

/-- The module-level abcd sell ladder, composed in source order with
elapsed = time_now_a - bought_time and the retry toggle starting as None. -/
def abcd_module_sell_ladder (position_held : Bool) (bought_time time_now_a : ℤ)
    (bought_price current_price btc_amount_held : ℚ) : SellOut :=
  ladder_panic (time_now_a - bought_time) bought_price current_price btc_amount_held
    (ladder_semi_panic (time_now_a - bought_time) bought_price current_price btc_amount_held
      (ladder_time_sell (time_now_a - bought_time) 63 btc_amount_held
        (ladder_time_sell (time_now_a - bought_time) 62 btc_amount_held
          (ladder_limit_late (time_now_a - bought_time) bought_price current_price btc_amount_held
            (ladder_limit_retry (time_now_a - bought_time) bought_price current_price btc_amount_held
              (ladder_limit_sell (time_now_a - bought_time) bought_price current_price btc_amount_held
                ⟨position_held, none, []⟩))))))

/-- Model flag, position flag and emitted orders after a win-rate evaluation. -/
structure EvalOut where
  model : Option Bool
  position_held : Bool
  orders : List Order
deriving DecidableEq

/-- The win-rate deactivation block shared verbatim by the abcd, abc, ab and
aandupspike sections of the main source file: win_rate is the win count over
the total when the total is positive and 0 otherwise; when win_rate < 0.60 and
the total is at least 20 the model flag is set to False and, if a position is
held, the full held size (or, when btc_amount_held is 0.0, the fetched BTC
balance) is market sold and the position cleared. -/
def win_rate_deactivation (win_count loss_count : ℕ) (model : Option Bool)
    (position_held : Bool) (btc_amount_held btc_balance : ℚ) : EvalOut :=
  let total := win_count + loss_count
  let win_rate : ℚ := if total > 0 then (win_count : ℚ) / (total : ℚ) else 0
  if win_rate < 60 / 100 ∧ total ≥ 20 then
    if position_held = true then
      let amt := if btc_amount_held = 0 then btc_balance else btc_amount_held
      ⟨some false, false, [Order.marketSell amt]⟩
    else ⟨some false, position_held, []⟩
  else ⟨model, position_held, []⟩

/-- Calibration viability flags for the abcd pattern: both flags start as
None; the model flag becomes True when the sample-count and win-fraction gate
passes, and nested inside that branch the range-constraints flag additionally
requires the most_win_thresholds list to be non-empty. -/
def abcd_viability_flags (totalcount wins_len most_win_len : ℕ) : Option Bool × Option Bool :=
  if totalcount ≥ 2000 ∧ (wins_len : ℚ) / (totalcount : ℚ) ≥ 70 / 100 then
    (some true, if most_win_len > 0 then some true else none)
  else (none, none)

/-- Live-trade gate of the module-level abcd section: hourly_bot == True and
abcdthen_a_model == True and abcdthen_range_constraints_gotten_a == True. -/
def abcd_live_trade_gate (hourly_bot model gotten_a : Option Bool) : Prop :=
  hourly_bot = some true ∧ model = some true ∧ gotten_a = some true

instance (hourly_bot model gotten_a : Option Bool) :
    Decidable (abcd_live_trade_gate hourly_bot model gotten_a) := by
  unfold abcd_live_trade_gate; infer_instance

/-- A stored abcd sample as constraints_guesser decodes its groups of ten:
positions 0 to 9 hold a, 1+ax, b, 1+axx, c, 1+ac, 1+bx, 1+bxx, 1+cd, d, so the
six multiplier components carried here are the recorded 1+x values. -/
structure StoredAbcd where
  a : ℚ
  ax : ℚ
  b : ℚ
  axx : ℚ
  c : ℚ
  ac : ℚ
  bx : ℚ
  bxx : ℚ
  cd : ℚ
  d : ℚ
deriving DecidableEq

/-- Bucket filter of constraints_guesser for one ceiling: all six stored
multiplier components at most the ceiling. -/
def abcd_in_bucket (ceil : ℚ) (smp : StoredAbcd) : Prop :=
  smp.ax ≤ ceil ∧ smp.axx ≤ ceil ∧ smp.ac ≤ ceil ∧ smp.bx ≤ ceil ∧
    smp.bxx ≤ ceil ∧ smp.cd ≤ ceil

instance (ceil : ℚ) (smp : StoredAbcd) : Decidable (abcd_in_bucket ceil smp) := by
  unfold abcd_in_bucket; infer_instance

/-- Win count of an abcd ceiling bucket: samples inside the ceiling whose
result point satisfies d >= cd * c (the stored cd already carries the 1+). -/
def abcd_bucket_win_count (samples : List StoredAbcd) (ceil : ℚ) : ℕ :=
  samples.countP fun smp => decide (abcd_in_bucket ceil smp ∧ smp.d ≥ smp.cd * smp.c)

/-- Loss count of an abcd ceiling bucket: samples inside the ceiling with
d < cd * c. -/
def abcd_bucket_loss_count (samples : List StoredAbcd) (ceil : ℚ) : ℕ :=
  samples.countP fun smp => decide (abcd_in_bucket ceil smp ∧ smp.d < smp.cd * smp.c)

/-- The fixed increasing sequence of tolerance ceilings of the eight buckets:
1.004, 1.006, 1.008, 1.01, 1.012, 1.014, 1.016, 1.018. -/
def ceilings : List ℚ :=
  [1004 / 1000, 1006 / 1000, 1008 / 1000, 1010 / 1000,
    1012 / 1000, 1014 / 1000, 1016 / 1000, 1018 / 1000]

/-- most_win_thresholds_abcd as the main source file defines it: an empty list
that no later statement ever appends to. -/
def most_win_thresholds_abcd : List ℚ := []

/-- most_loss_thresholds_abcd as the main source file defines it: an empty
list that no later statement ever appends to. -/
def most_loss_thresholds_abcd : List ℚ := []

/-- The acceptance check the source applies once, to the lengths of the
most_win and most_loss threshold lists: len(most_win) >= 1.5 * len(most_loss)
and len(most_win) >= 30 sets the flag to True, else it stays None. -/
def gotten_b_check (win_len loss_len : ℕ) : Option Bool :=
  if (win_len : ℚ) ≥ 15 / 10 * (loss_len : ℚ) ∧ win_len ≥ 30 then some true else none

/-- abcdthen_range_constraints_gotten_b as the module computes it, from the
empty most lists. -/
def abcdthen_range_constraints_gotten_b : Option Bool :=
  gotten_b_check most_win_thresholds_abcd.length most_loss_thresholds_abcd.length

/-- Modelled from the spec: the claimed selection rule for the accepted band,
the smallest ceiling whose bucket satisfies win_count ≥ 1.5 × loss_count and
win_count ≥ 30, or none when no ceiling qualifies. The source performs no such
per-ceiling search; this definition exists only to compare the claim against
the code. -/
def accepted_band_spec (samples : List StoredAbcd) : Option ℚ :=
  ceilings.find? fun ceil =>
    decide ((abcd_bucket_win_count samples ceil : ℚ) ≥
        15 / 10 * (abcd_bucket_loss_count samples ceil : ℚ) ∧
      abcd_bucket_win_count samples ceil ≥ 30)

/-- The pattern shapes of the system. -/
inductive PatternId where
  | abcd
  | abc
  | ab
  | dropped_abc
  | dropped_ab
  | aandupspike
deriving DecidableEq

/-- The pattern trading sections present at module level in the main source
file, in source order: abcd, abc, ab, aandupspike. The dropped_ab and
dropped_abc shapes have calibration flags but no trading section. -/
def trading_sections : List PatternId :=
  [PatternId.abcd, PatternId.abc, PatternId.ab, PatternId.aandupspike]

/-- The eight per-pattern history lists the recording blocks create. -/
structure Histories where
  win_history_abcdthen_a : List ℕ
  loss_history_abcdthen_a : List ℕ
  win_history_abcthen : List ℕ
  loss_history_abcthen : List ℕ
  win_history_abthen : List ℕ
  loss_history_abthen : List ℕ
  win_history_aandupspike : List ℕ
  loss_history_aandupspike : List ℕ
deriving DecidableEq

/-- The four win and loss recording blocks evaluated on the single shared set
of module globals (position_held, sold_price, bought_price): each block
re-creates its two empty history lists and then appends ordercount = 1 to the
win history when position_held is False, both prices are recorded numbers and
sold_price > bought_price, and to the loss history when sold_price <
bought_price.  All four blocks read the same shared triple. -/
def recording_pass (position_held : Bool) (sold_price bought_price : Option ℚ) : Histories :=
  let win : Bool :=
    match position_held, sold_price, bought_price with
    | false, some sp, some bp => decide (sp > bp)
    | _, _, _ => false
  let loss : Bool :=
    match position_held, sold_price, bought_price with
    | false, some sp, some bp => decide (sp < bp)
    | _, _, _ => false
  ⟨if win then [1] else [], if loss then [1] else [],
    if win then [1] else [], if loss then [1] else [],
    if win then [1] else [], if loss then [1] else [],
    if win then [1] else [], if loss then [1] else []⟩

/-- C2: the abcd pattern is allowed to trade live only if BOTH the calibration
gate passed (total backtested sample count at least 2000 and win fraction at
least 0.70) and the accepted threshold list is non-empty; in particular the
gate never opens when that list is empty, regardless of the raw win ratio. -/
theorem abcd_live_gate_requires_both (hourly_bot : Option Bool)
    (totalcount wins_len most_win_len : ℕ) :
    (abcd_live_trade_gate hourly_bot
        (abcd_viability_flags totalcount wins_len most_win_len).1
        (abcd_viability_flags totalcount wins_len most_win_len).2 →
      totalcount ≥ 2000 ∧ (wins_len : ℚ) / (totalcount : ℚ) ≥ 70 / 100 ∧ 0 < most_win_len) ∧
      (most_win_len = 0 →
        ¬ abcd_live_trade_gate hourly_bot
            (abcd_viability_flags totalcount wins_len most_win_len).1
            (abcd_viability_flags totalcount wins_len most_win_len).2) := by
  unfold abcd_live_trade_gate abcd_viability_flags
  by_cases h1 : totalcount ≥ 2000 ∧ (wins_len : ℚ) / (totalcount : ℚ) ≥ 70 / 100
  · rw [if_pos h1]
    by_cases h2 : 0 < most_win_len
    · rw [if_pos h2]
      exact ⟨fun _ => ⟨h1.1, h1.2, h2⟩, fun h0 => by omega⟩
    · rw [if_neg h2]
      exact ⟨fun hg => absurd hg.2.2 (by simp), fun _ hg => absurd hg.2.2 (by simp)⟩
  · rw [if_neg h1]
    exact ⟨fun hg => absurd hg.2.1 (by simp), fun _ hg => absurd hg.2.1 (by simp)⟩

/-- Witness for C2: at totalcount 2000 with 1400 wins and a one-element
accepted list the open gate yields the conjunction, and with an empty accepted
list the gate is refused. -/
theorem abcd_live_gate_requires_both_witness :
    (2000 ≥ 2000 ∧ ((1400 : ℚ) / (2000 : ℚ) ≥ 70 / 100) ∧ 0 < 1) ∧
      ¬ abcd_live_trade_gate (some true)
          (abcd_viability_flags 2000 1400 0).1 (abcd_viability_flags 2000 1400 0).2 := by
  constructor
  · refine (abcd_live_gate_requires_both (some true) 2000 1400 1).1 ?_
    unfold abcd_live_trade_gate abcd_viability_flags
    norm_num
  · exact (abcd_live_gate_requires_both (some true) 2000 1400 0).2 rfl

/-- C3: whenever the recorded win-plus-loss total is at least 20 and the win
rate is below 0.60, the evaluation sets the model flag to False, leaves no
position open, and, when a position was open, market sells the full held size
within the same evaluation. -/
theorem win_rate_deactivation_disables_and_flattens
    (win_count loss_count : ℕ) (model : Option Bool) (position_held : Bool)
    (btc_amount_held btc_balance : ℚ)
    (htot : win_count + loss_count ≥ 20)
    (hrate : (win_count : ℚ) / ((win_count + loss_count : ℕ) : ℚ) < 60 / 100) :
    (win_rate_deactivation win_count loss_count model position_held
        btc_amount_held btc_balance).model = some false ∧
      (win_rate_deactivation win_count loss_count model position_held
        btc_amount_held btc_balance).position_held = false ∧
      (position_held = true →
        (win_rate_deactivation win_count loss_count model position_held
          btc_amount_held btc_balance).orders =
          [Order.marketSell (if btc_amount_held = 0 then btc_balance else btc_amount_held)]) := by
  have hpos : 0 < win_count + loss_count := by omega
  unfold win_rate_deactivation
  simp only [gt_iff_lt, hpos, if_true, ge_iff_le]
  rw [if_pos ⟨hrate, htot⟩]
  by_cases h2 : position_held = true
  · rw [if_pos h2]
    exact ⟨rfl, rfl, fun _ => rfl⟩
  · rw [if_neg h2]
    exact ⟨rfl, by simp at h2; exact h2, fun h => absurd h h2⟩

/-- Witness for C3 at win_count 15 and loss_count 20 with an open position:
total 35 ≥ 20, win rate 15/35 < 0.60, so the model flag flips to False, the
position is flattened and the held 0.05 BTC is market sold. -/
theorem win_rate_deactivation_witness :
    (win_rate_deactivation 15 20 (some true) true (5 / 100) 1).model = some false ∧
      (win_rate_deactivation 15 20 (some true) true (5 / 100) 1).position_held = false ∧
      (true = true →
        (win_rate_deactivation 15 20 (some true) true (5 / 100) 1).orders =
          [Order.marketSell (if (5 / 100 : ℚ) = 0 then 1 else 5 / 100)]) :=
  win_rate_deactivation_disables_and_flattens 15 20 (some true) true (5 / 100) 1
    (by norm_num) (by norm_num)

lemma countP_replicate (p : StoredAbcd → Bool) (n : ℕ) (a : StoredAbcd) :
    (List.replicate n a).countP p = if p a then n else 0 := by
  induction n with
  | zero => simp
  | succ n ih =>
    rw [List.replicate_succ, List.countP_cons]
    by_cases h : p a
    · simp [h, ih]
    · simp [h, ih]

/-- Thirty identical winning abcd samples whose components sit inside the
tightest ceiling. -/
def bandSamples : List StoredAbcd :=
  List.replicate 30 ⟨1, 1, 1, 1, 1, 1, 1, 1, 1, 2⟩

/-- C7 counterexample: on these samples the spec selection rule accepts the
smallest ceiling 1.004 (30 wins, 0 losses), but the program computes the band
flag from the never-populated most threshold lists and accepts nothing. -/
theorem accepted_band_not_smallest_ceiling :
    accepted_band_spec bandSamples = some (1004 / 1000) ∧
      abcdthen_range_constraints_gotten_b = none := by
  have hwin : abcd_bucket_win_count bandSamples (1004 / 1000) = 30 := by
    unfold abcd_bucket_win_count bandSamples
    rw [countP_replicate]
    norm_num [abcd_in_bucket]
  have hloss : abcd_bucket_loss_count bandSamples (1004 / 1000) = 0 := by
    unfold abcd_bucket_loss_count bandSamples
    rw [countP_replicate]
    norm_num [abcd_in_bucket]
  constructor
  · unfold accepted_band_spec ceilings
    rw [List.find?_cons_of_pos]
    simp [hwin, hloss]
  · unfold abcdthen_range_constraints_gotten_b gotten_b_check
    norm_num [most_win_thresholds_abcd, most_loss_thresholds_abcd]

/-- C7 amended: the acceptance rule win_count ≥ 1.5 × loss_count and
win_count ≥ 30 is applied once, to the lengths of the most_win and most_loss
threshold lists, not per ceiling; no smallest-ceiling search exists, and since
those lists are never populated the abcd pattern never receives an accepted
band. -/
theorem abcd_accepted_band_never_set :
    abcdthen_range_constraints_gotten_b =
        gotten_b_check most_win_thresholds_abcd.length most_loss_thresholds_abcd.length ∧
      abcdthen_range_constraints_gotten_b = none := by
  refine ⟨rfl, ?_⟩
  unfold abcdthen_range_constraints_gotten_b gotten_b_check
  norm_num [most_win_thresholds_abcd, most_loss_thresholds_abcd]

/-- C9: the per-ceiling bucketing is monotone in the ceiling: each ceiling is
evaluated independently over all samples, so for ceilings c1 < c2 of the fixed
sequence both the win count and the loss count at c1 are at most those at
c2. -/
theorem bucket_counts_monotone (samples : List StoredAbcd) (c1 c2 : ℚ)
    (h1 : c1 ∈ ceilings) (h2 : c2 ∈ ceilings) (hlt : c1 < c2) :
    abcd_bucket_win_count samples c1 ≤ abcd_bucket_win_count samples c2 ∧
      abcd_bucket_loss_count samples c1 ≤ abcd_bucket_loss_count samples c2 := by
  have hmono : ∀ ceil : ℚ, ∀ smp : StoredAbcd, abcd_in_bucket c1 smp → abcd_in_bucket c2 smp := by
    intro _ smp hb
    obtain ⟨q1, q2, q3, q4, q5, q6⟩ := hb
    exact ⟨q1.trans hlt.le, q2.trans hlt.le, q3.trans hlt.le,
      q4.trans hlt.le, q5.trans hlt.le, q6.trans hlt.le⟩
  constructor
  · unfold abcd_bucket_win_count
    refine List.countP_mono_left fun smp _ hc => ?_
    rw [decide_eq_true_eq] at hc ⊢
    exact ⟨hmono c2 smp hc.1, hc.2⟩
  · unfold abcd_bucket_loss_count
    refine List.countP_mono_left fun smp _ hc => ?_
    rw [decide_eq_true_eq] at hc ⊢
    exact ⟨hmono c2 smp hc.1, hc.2⟩

/-- Witness for C9 at the concrete ceilings 1.004 < 1.008 on the thirty
winning samples. -/
theorem bucket_counts_monotone_witness :
    abcd_bucket_win_count bandSamples (1004 / 1000) ≤
        abcd_bucket_win_count bandSamples (1008 / 1000) ∧
      abcd_bucket_loss_count bandSamples (1004 / 1000) ≤
        abcd_bucket_loss_count bandSamples (1008 / 1000) :=
  bucket_counts_monotone bandSamples (1004 / 1000) (1008 / 1000)
    (by unfold ceilings; norm_num) (by unfold ceilings; norm_num) (by norm_num)

lemma run_cycles_inactive (s : BotState) (hs1 : s.hourly_bot = false)
    (hs2 : s.minutely_bot = false) (ts : List Tick) : run_cycles s ts = (s, []) := by
  induction ts with
  | nil => rfl
  | cons t ts ih =>
    have hcycle : execute_bot_cycle s t = (s, []) := by
      unfold execute_bot_cycle
      rw [if_neg (by simp [hs1]), if_neg (by simp [hs2])]
    simp [run_cycles, hcycle, ih]

/-- C5: once the slippage fault count reaches 20 with at least 100 recorded
trade results, the kill-switch clears both bot mode flags, and from then on
every cycle is inactive: the state never changes and no order of any kind is
emitted again, in particular no buy fires for any pattern, whatever the
per-pattern model flags still say. -/
theorem slippage_kill_switch_stops_all_buys (s : BotState) (fault_count results_count : ℕ)
    (hf : fault_count ≥ 20) (hr : results_count ≥ 100) (ts : List Tick) :
    (price_slippage_check s fault_count results_count).hourly_bot = false ∧
      (price_slippage_check s fault_count results_count).minutely_bot = false ∧
      run_cycles (price_slippage_check s fault_count results_count) ts =
        (price_slippage_check s fault_count results_count, []) := by
  have hstep : price_slippage_check s fault_count results_count =
      slippage_flag_force
        { s with price_slippage_server_fault := some true, hourly_bot := false, minutely_bot := false } := by
    unfold price_slippage_check
    rw [if_pos ⟨hf, hr⟩]
  have hflags : (price_slippage_check s fault_count results_count).hourly_bot = false ∧
      (price_slippage_check s fault_count results_count).minutely_bot = false := by
    rw [hstep]
    simp [slippage_flag_force]
  exact ⟨hflags.1, hflags.2, run_cycles_inactive _ hflags.1 hflags.2 ts⟩

/-- A state whose patterns are all enabled and individually profitable-looking:
both model flags truthy, hourly mode on, no position. -/
def killState : BotState :=
  ⟨true, false, true, true, none, false, 0, 0, 0, none, none⟩

/-- A tick on which the abcd match predicate holds, so a buy would fire were
the mode flags still on. -/
def killTick : Tick :=
  ⟨0, 103, 3, some 101, some 100, some 99, some 95, 5, true, true⟩

/-- Witness for C5: at 20 faults over a 100-trade record the kill-switch
output has both mode flags off and a subsequent matching tick produces no
order. -/
theorem slippage_kill_switch_stops_all_buys_witness :
    (price_slippage_check killState 20 100).hourly_bot = false ∧
      (price_slippage_check killState 20 100).minutely_bot = false ∧
      run_cycles (price_slippage_check killState 20 100) [killTick] =
        (price_slippage_check killState 20 100, []) :=
  slippage_kill_switch_stops_all_buys killState 20 100 (by norm_num) (by norm_num) [killTick]

/-- C1 counterexample: with the three gates open and the match predicate true,
the module-level abcd buy block places a market buy even though a position is
already held on entry (position flag true): the block has no check that no
position is currently open. -/
theorem abcd_module_buy_fires_while_held :
    abcd_module_buy_block (some true) (some true) (some true) true 103 101 100 99 =
      (true, [Order.marketBuy (5 / 100 * 103)]) := by
  unfold abcd_module_buy_block
  rw [if_pos ⟨rfl, rfl, rfl⟩, if_pos (by norm_num)]

lemma sell_checks_no_marketBuy (s1 : BotState) (t : Tick) (amt : ℚ) :
    Order.marketBuy amt ∉ (sell_checks s1 t).2 := by
  unfold sell_checks
  split_ifs <;> simp

/-- C1 amended: in the tick-driven execute_hourly_strategy a market buy can be
placed only when the model flag is truthy, no position is currently open, and
the live abcd match predicate holds, so the tick loop never opens a second
position while one is open; the module-level abcd buy block, by contrast,
lacks the open-position check. -/
theorem hourly_buy_only_when_idle (s : BotState) (t : Tick) (amt : ℚ)
    (hbuy : Order.marketBuy amt ∈ (execute_hourly_strategy s t).2) :
    s.position_held = false ∧ s.abcdthen_a_model = true ∧ abcd_live_match t := by
  unfold execute_hourly_strategy at hbuy
  rw [List.mem_append] at hbuy
  rcases hbuy with hb | hb
  · unfold hourly_buy_step at hb
    by_cases hg : t.marks_count ≥ 3 ∧ s.abcdthen_a_model = true ∧ s.position_held = false ∧
        abcd_live_match t
    · exact ⟨hg.2.2.1, hg.2.1, hg.2.2.2⟩
    · rw [if_neg hg] at hb
      simp at hb
  · exact absurd hb (sell_checks_no_marketBuy _ t amt)

/-- An idle state with the abcd model enabled. -/
def idleState : BotState :=
  ⟨true, false, true, true, none, false, 0, 0, 0, none, none⟩

/-- A tick whose three marks satisfy the abcd match predicate. -/
def buyTick : Tick :=
  ⟨1000, 103, 3, some 101, some 100, some 99, some 95, 5, true, true⟩

/-- Witness for C1: on the concrete idle state and matching tick the strategy
emits a market buy, and the theorem recovers idleness, the enabled flag and
the match predicate. -/
theorem hourly_buy_only_when_idle_witness :
    idleState.position_held = false ∧ idleState.abcdthen_a_model = true ∧
      abcd_live_match buyTick :=
  hourly_buy_only_when_idle idleState buyTick 5 (by
    unfold execute_hourly_strategy hourly_buy_step sell_checks
    norm_num [idleState, buyTick, abcd_live_match, truthyQ])

/-- C8 counterexample: with a position held, bought price 100 and current
price 97 (a 3 percent drawdown, beyond the 2 percent floor), at elapsed time
3 the module-level abcd sell ladder emits no order at all and leaves the
position open: the panic sell fires only from elapsed time 5 on, not at any
elapsed time. -/
theorem panic_sell_not_at_any_time :
    (97 : ℚ) ≤ 98 / 100 * 100 ∧
      abcd_module_sell_ladder true 0 3 100 97 (5 / 100) = ⟨true, none, []⟩ := by
  constructor
  · norm_num
  · unfold abcd_module_sell_ladder ladder_limit_sell ladder_limit_retry ladder_limit_late
      ladder_time_sell ladder_semi_panic ladder_panic
    norm_num

/-- C8 amended: while a position is held and the current price has fallen to
0.98 times the bought price or lower, the module-level abcd ladder emits a
market sell of the full held size and ends with the position cleared whenever
elapsed time is at least 5, and the execute_hourly_strategy sell checks emit a
market sell of the full held size at any elapsed time. -/
theorem panic_sell_after_grace (position_held : Bool) (bought_time time_now_a : ℤ)
    (bought_price current_price btc_amount_held : ℚ) (s : BotState) (t : Tick)
    (hheld : position_held = true) (hb : bought_price > 0)
    (hel : time_now_a - bought_time ≥ 5)
    (hdrop : current_price ≤ 98 / 100 * bought_price)
    (hheld2 : s.position_held = true) (hb2 : s.bought_price > 0)
    (hdrop2 : t.current_price ≤ 98 / 100 * s.bought_price) :
    (Order.marketSell btc_amount_held ∈
        (abcd_module_sell_ladder position_held bought_time time_now_a bought_price
          current_price btc_amount_held).orders ∧
      (abcd_module_sell_ladder position_held bought_time time_now_a bought_price
        current_price btc_amount_held).position_held = false) ∧
      Order.marketSell s.btc_amount_held ∈ (execute_hourly_strategy s t).2 := by
  have hlt5 : ¬ current_price ≥ 1005 / 1000 * bought_price := by
    intro hc
    nlinarith
  have hlt4 : ¬ current_price ≥ 1004 / 1000 * bought_price := by
    intro hc
    nlinarith
  constructor
  · by_cases h62 : time_now_a - bought_time ≥ 62
    · unfold abcd_module_sell_ladder
      simp [ladder_limit_sell, ladder_limit_retry, ladder_limit_late, ladder_time_sell,
        ladder_semi_panic, ladder_panic, hheld, hlt5, hlt4, h62]
    · have h63 : ¬ time_now_a - bought_time ≥ 63 := by omega
      unfold abcd_module_sell_ladder
      simp [ladder_limit_sell, ladder_limit_retry, ladder_limit_late, ladder_time_sell,
        ladder_semi_panic, ladder_panic, hheld, hlt5, hlt4, h62, h63, hel, hdrop]
  · have hbuy0 : hourly_buy_step s t = (s, []) := by
      unfold hourly_buy_step
      rw [if_neg (fun h => by simp [hheld2] at h)]
    have hchange : (t.current_price - s.bought_price) / s.bought_price ≤ -(2 / 100) := by
      rw [div_le_iff₀ hb2]
      linarith
    have hnot : ¬ ((t.current_price - s.bought_price) / s.bought_price ≥ 5 / 1000 ∧
        t.current_time - s.bought_time ≥ 60) := by
      rintro ⟨hge, -⟩
      linarith
    unfold execute_hourly_strategy
    rw [hbuy0]
    show Order.marketSell s.btc_amount_held ∈ (sell_checks s t).2
    unfold sell_checks
    rw [if_pos hheld2, if_neg hnot]
    by_cases h120 : t.current_time - s.bought_time ≥ 120
    · rw [if_pos h120]
      split_ifs <;> simp
    · rw [if_neg h120, if_pos hchange]
      split_ifs <;> simp

/-- A state holding a position bought at 100 with 0.05 BTC held. -/
def heldState : BotState :=
  ⟨true, false, true, true, none, true, 0, 100, 5 / 100, none, none⟩

/-- A tick at price 97, a 3 percent drawdown from the bought price 100. -/
def dropTick : Tick :=
  ⟨10, 97, 3, some 101, some 100, some 99, some 95, 5, true, true⟩

/-- Witness for C8: at bought price 100, current price 97 and elapsed time 10
both the module ladder and the hourly strategy market sell the held size. -/
theorem panic_sell_after_grace_witness :
    (Order.marketSell (5 / 100) ∈
        (abcd_module_sell_ladder true 0 10 100 97 (5 / 100)).orders ∧
      (abcd_module_sell_ladder true 0 10 100 97 (5 / 100)).position_held = false) ∧
      Order.marketSell heldState.btc_amount_held ∈
        (execute_hourly_strategy heldState dropTick).2 :=
  panic_sell_after_grace true 0 10 100 97 (5 / 100) heldState dropTick
    rfl (by norm_num) (by norm_num) (by norm_num)
    rfl (by norm_num [heldState]) (by norm_num [heldState, dropTick])

/-- C10 counterexample: the module level has four pattern trading sections
(abcd, abc, ab, aandupspike), not six: the dropped pattern variants have
calibration flags but no trading sections. -/
theorem trading_sections_are_four_not_six :
    trading_sections.length = 4 ∧ trading_sections.length ≠ 6 :=
  ⟨rfl, by decide⟩

/-- C10 amended: the four pattern trading sections share the single set of
module-level position globals, so after any closed trade every one of the four
recording blocks appends the same outcome, computed from the one shared
(bought_price, sold_price) pair, to its own history: the per-pattern histories
are not isolated from each other. -/
theorem recording_blocks_share_position (sp bp : ℚ) :
    (sp > bp → recording_pass false (some sp) (some bp) =
        ⟨[1], [], [1], [], [1], [], [1], []⟩) ∧
      (sp < bp → recording_pass false (some sp) (some bp) =
        ⟨[], [1], [], [1], [], [1], [], [1]⟩) := by
  constructor
  · intro h
    have h1 : decide (sp > bp) = true := decide_eq_true h
    have h2 : decide (sp < bp) = false := decide_eq_false (not_lt.mpr h.le)
    simp [recording_pass, h1, h2]
  · intro h
    have h1 : decide (sp > bp) = false := decide_eq_false (not_lt.mpr h.le)
    have h2 : decide (sp < bp) = true := decide_eq_true h
    simp [recording_pass, h1, h2]

/-- Witness for C10: a winning close at (bought 100, sold 105) appends a win
to all four histories, and a losing close at (bought 100, sold 95) appends a
loss to all four. -/
theorem recording_blocks_share_position_witness :
    (recording_pass false (some 105) (some 100) = ⟨[1], [], [1], [], [1], [], [1], []⟩) ∧
      (recording_pass false (some 95) (some 100) = ⟨[], [1], [], [1], [], [1], [], [1]⟩) :=
  ⟨(recording_blocks_share_position 105 100).1 (by norm_num),
    (recording_blocks_share_position 95 100).2 (by norm_num)⟩

end HarkBot
